import Mathlib

/-!
Shallow embedding of the floating-panel widgets of this repository
(datepicker input directive, popover directive, typeahead directive and
typeahead window component).

Each widget directive is modelled as a structure holding the fields the
TypeScript class mutates (the panel `ComponentRef`, the one-shot
`_ignoreUpdatePosition` flag, whether the document scroll listener is
registered, the stored model, the registered form callbacks and the
configuration inputs).  Framework objects that the directives only hold
references to (templates, callbacks, elements, component refs) are
abstracted as `Nat` handles; DOM side effects (`positionElements` calls,
component creation) are returned as explicit outputs next to the new state.
-/

namespace NgbBootstrap

/-- Target of a DOM event: the document itself or some element (abstracted
by a numeric handle).  Used by the scroll listeners, which compare
`ev.target === document`. -/
inductive EventTarget where
  | document : EventTarget
  | element : Nat → EventTarget
deriving DecidableEq, Repr

/-- `NgbDate` / `NgbDateStruct`: a plain year-month-day record. -/
structure NgbDate where
  year : Int
  month : Int
  day : Int
deriving DecidableEq, Repr

/-- Modelled from the spec: `NgbDatepickerService.toValidDate` lives in
`src/datepicker/datepicker-service.ts`, which is not under `src/`.  Per the
spec's error-handling section ("no error branch for unparseable input — the
model is set to null"), it returns the given date when it is a valid date
and otherwise the fallback; `none` stands for TypeScript `null`.  Date
validity itself is kept abstract as a predicate argument. -/
def toValidDate (isValid : NgbDate → Bool) (date : Option NgbDate)
    (fallback : Option NgbDate) : Option NgbDate :=
  match date with
  | none => fallback
  | some d => if isValid d then some d else fallback

/-- State of the `NgbInputDatepicker` directive
(src/src/datepicker/datepicker-input.ts).  `cRef` is `_cRef` (the panel
component ref, `none` = closed), `model` is `_model`, `onChange` /
`onTouched` are handles for the registered callbacks, and the remaining
fields are the `@Input()` configuration values (function- and
template-valued inputs abstracted as `Nat` handles). -/
structure NgbInputDatepicker where
  cRef : Option Nat
  model : Option NgbDate
  onChange : Nat
  onTouched : Nat
  ignoreUpdatePosition : Bool
  scrollListenerRegistered : Bool
  elRef : Nat
  dayTemplate : Option Nat
  displayMonths : Option Int
  firstDayOfWeek : Option Int
  markDisabled : Option Nat
  minDate : Option NgbDate
  maxDate : Option NgbDate
  navigation : Option String
  outsideDays : Option String
  showFooter : Option Bool
  showWeekdays : Option Bool
  showWeekNumbers : Option Bool
  startDate : Option (Int × Int)
deriving DecidableEq, Repr

namespace NgbInputDatepicker

/-- `isOpen() { return !!this._cRef; }` -/
def isOpen (s : NgbInputDatepicker) : Bool :=
  s.cRef.isSome

/-- `open()` (named `openPanel` because `open` is a Lean keyword).  The
source guards the whole body with `if (!this.isOpen())`; inside it creates
the datepicker component (`this._cRef = this._vcRef.createComponent(cf)`),
styles it, wires it up, appends it to the document body and registers the
document scroll listener.  The returned list holds the component refs
created by the call (the child-component wiring acts on the created
component, not on the directive's own fields). -/
def openPanel (newRef : Nat) (s : NgbInputDatepicker) :
    NgbInputDatepicker × List Nat :=
  if s.isOpen then (s, [])
  else ({ s with cRef := some newRef, scrollListenerRegistered := true },
        [newRef])

/-- `close()`: first `document.removeEventListener('scroll', ...)`
(unconditionally), then, if open, remove the hosted view and null out
`_cRef`. -/
def close (s : NgbInputDatepicker) : NgbInputDatepicker :=
  let s1 := { s with scrollListenerRegistered := false }
  if s1.isOpen then { s1 with cRef := none } else s1

/-- `toggle()`: close when open, open when closed. -/
def toggle (newRef : Nat) (s : NgbInputDatepicker) :
    NgbInputDatepicker × List Nat :=
  if s.isOpen then (s.close, []) else s.openPanel newRef

/-- The `_scrollListener` installed by `open()`: when the event target is
the document it sets `_ignoreUpdatePosition = true`, otherwise it does
nothing.  The listener only runs while it is registered on the document. -/
def handleScrollEvent (tgt : EventTarget) (s : NgbInputDatepicker) :
    NgbInputDatepicker :=
  if s.scrollListenerRegistered then
    if tgt = EventTarget.document then { s with ignoreUpdatePosition := true }
    else s
  else s

/-- The `ngZone.onStable` subscription set up in the constructor: when
`_cRef` is present and `_ignoreUpdatePosition` is not set it calls
`positionElements(this._elRef.nativeElement,
this._cRef.location.nativeElement, 'bottom-left', true)`; afterwards the
flag is always reset to `false`.  The second component of the result is the
`positionElements` call made, as the pair (anchor element, panel
element handle), `none` when no call is made. -/
def onStableTick (s : NgbInputDatepicker) :
    NgbInputDatepicker × Option (Nat × Nat) :=
  let call : Option (Nat × Nat) :=
    match s.cRef with
    | some r => if !s.ignoreUpdatePosition then some (s.elRef, r) else none
    | none => none
  ({ s with ignoreUpdatePosition := false }, call)

/-- Observable effects of `manualDateChange` besides the state update:
the value passed to the registered `_onChange` callback and the model value
handed to `this._parserFormatter.format` when writing the input element's
`value` property (`_writeModelValue`). -/
structure ManualDateChangeEffects where
  onChangeArg : Option NgbDate
  formattedModel : Option NgbDate
  onTouchedCalled : Bool
deriving DecidableEq, Repr

/-- `manualDateChange(value)`: `this._model =
this._service.toValidDate(this._parserFormatter.parse(value), null)`, then
`this._onChange(this._model ? \x7byear, month, day\x7d : null)` and
`this._writeModelValue(this._model)` (which formats the model into the
input element and, when open, also updates the child and calls
`_onTouched`).  The parser (`NgbDateParserFormatter.parse`, not under
`src/`) is abstracted as a function argument. -/
def manualDateChange (parse : String → Option NgbDate)
    (isValid : NgbDate → Bool) (value : String) (s : NgbInputDatepicker) :
    NgbInputDatepicker × ManualDateChangeEffects :=
  let m := toValidDate isValid (parse value) none
  ({ s with model := m },
   { onChangeArg := m, formattedModel := m, onTouchedCalled := s.isOpen })

/-- The host binding `'(keyup.esc)': 'close()'` (line 40 of the source):
pressing Escape on the input invokes `close()`. -/
def handleEscKeyup (s : NgbInputDatepicker) : NgbInputDatepicker :=
  s.close

end NgbInputDatepicker

/-- Popover placement input: `'top' | 'bottom' | 'left' | 'right'`. -/
inductive Placement where
  | top : Placement
  | bottom : Placement
  | left : Placement
  | right : Placement
deriving DecidableEq, Repr

/-- State of the `NgbPopover` directive (src/src/popover/popover.ts).
`windowRef` is `_windowRef` (`none` = closed); `content`, `title`,
`placement` and `triggers` are the `@Input()` configuration values (the
`TemplateRef` form of the content abstracted away to its string form). -/
structure NgbPopover where
  windowRef : Option Nat
  content : Option String
  title : Option String
  placement : Placement
  triggers : String
  ignoreUpdatePosition : Bool
  scrollListenerRegistered : Bool
  elementRef : Nat
deriving DecidableEq, Repr

namespace NgbPopover

/-- `open()` (named `openPanel` because `open` is a Lean keyword).  Guarded
by `if (!this._windowRef)`; inside it creates the popover window through
`this._popupService.open(this.ngbPopover, true)`, copies `placement` and
`title` onto the window instance and registers the document scroll
listener.  The returned list holds the window component refs created by the
call. -/
def openPanel (newRef : Nat) (s : NgbPopover) : NgbPopover × List Nat :=
  if s.windowRef.isSome then (s, [])
  else ({ s with windowRef := some newRef, scrollListenerRegistered := true },
        [newRef])

/-- `close()`: `document.removeEventListener('scroll', ...)`, then
`this._popupService.close()` (tears down the service's open window, if any;
`PopupService` lives in `src/util/popup.ts`, not under `src/`, and is
modelled from the spec's open/close panel lifecycle) and unconditionally
`this._windowRef = null`. -/
def close (s : NgbPopover) : NgbPopover :=
  { s with scrollListenerRegistered := false, windowRef := none }

/-- `toggle()`: close when `_windowRef` is present, open otherwise. -/
def toggle (newRef : Nat) (s : NgbPopover) : NgbPopover × List Nat :=
  if s.windowRef.isSome then (s.close, []) else s.openPanel newRef

/-- The `_scrollListener` installed by `open()`: identical to the
datepicker's — a document-target scroll sets `_ignoreUpdatePosition`. -/
def handleScrollEvent (tgt : EventTarget) (s : NgbPopover) : NgbPopover :=
  if s.scrollListenerRegistered then
    if tgt = EventTarget.document then { s with ignoreUpdatePosition := true }
    else s
  else s

/-- `ngAfterViewChecked()`: when `_windowRef` is present and
`_ignoreUpdatePosition` is not set it calls
`positionElements(this._elementRef.nativeElement,
this._windowRef.location.nativeElement, this.placement, true)`; then the
flag is always reset.  The second component is the call made: (anchor
element, panel element, placement argument). -/
def ngAfterViewChecked (s : NgbPopover) :
    NgbPopover × Option (Nat × Nat × Placement) :=
  let call : Option (Nat × Nat × Placement) :=
    match s.windowRef with
    | some r =>
        if !s.ignoreUpdatePosition then some (s.elementRef, r, s.placement)
        else none
    | none => none
  ({ s with ignoreUpdatePosition := false }, call)

/-- Modelled from the spec: `listenToTriggers` (src/util/triggers.ts) and
`NgbPopoverConfig` (src/popover/popover-config.ts) are not under `src/`.
`ngOnInit` registers trigger listeners with `this.close.bind(this)` as the
close callback; per the spec ("tears it down on outside click/scroll/
escape"), an escape key event dispatches that close callback. -/
def handleEscape (s : NgbPopover) : NgbPopover :=
  s.close

end NgbPopover

/-- State of the `NgbTypeahead` directive (src/unnamed/part_000, second
file).  `windowRef` is `_windowRef` (`none` = closed); `onChangeNoEmit` and
`onTouched` are handles for the registered form callbacks; the remaining
fields are the `@Input()` configuration values abstracted as handles. -/
structure NgbTypeahead where
  windowRef : Option Nat
  ignoreUpdatePosition : Bool
  scrollListenerRegistered : Bool
  elementRef : Nat
  onChangeNoEmit : Nat
  onTouched : Nat
  inputFormatter : Option Nat
  ngbTypeahead : Option Nat
  resultFormatter : Option Nat
  resultTemplate : Option Nat
deriving DecidableEq, Repr

namespace NgbTypeahead

/-- `isPopupOpen() { return this._windowRef != null; }` -/
def isPopupOpen (s : NgbTypeahead) : Bool :=
  s.windowRef.isSome

/-- `_openPopup()` (named `openPopup`).  Guarded by
`if (!this._windowRef)`; inside it creates the typeahead window through
`this._popupService.open(null, true)`, subscribes to its select event and
registers the document scroll listener.  The returned list holds the window
component refs created by the call. -/
def openPopup (newRef : Nat) (s : NgbTypeahead) : NgbTypeahead × List Nat :=
  if s.windowRef.isSome then (s, [])
  else ({ s with windowRef := some newRef, scrollListenerRegistered := true },
        [newRef])

/-- `closePopup()`: `document.removeEventListener('scroll', ...)`, then
`this._popupService.close()` (see the popover note on `PopupService`) and
unconditionally `this._windowRef = null`. -/
def closePopup (s : NgbTypeahead) : NgbTypeahead :=
  { s with scrollListenerRegistered := false, windowRef := none }

/-- The `_scrollListener` installed by `_openPopup()`: identical to the
other two widgets. -/
def handleScrollEvent (tgt : EventTarget) (s : NgbTypeahead) : NgbTypeahead :=
  if s.scrollListenerRegistered then
    if tgt = EventTarget.document then { s with ignoreUpdatePosition := true }
    else s
  else s

/-- `ngAfterViewChecked()`: when `_windowRef` is present and the flag is
not set it calls `this._positioning.positionElements(
this._elementRef.nativeElement, this._windowRef.location.nativeElement,
'bottom-left', true)` and copies the resulting top/left onto the window's
style; then the flag is always reset.  The second component is the
positioning call made, as (anchor element, panel element handle). -/
def ngAfterViewChecked (s : NgbTypeahead) :
    NgbTypeahead × Option (Nat × Nat) :=
  let call : Option (Nat × Nat) :=
    match s.windowRef with
    | some r => if !s.ignoreUpdatePosition then some (s.elementRef, r) else none
    | none => none
  ({ s with ignoreUpdatePosition := false }, call)

/-- `enum Key`: the key codes the typeahead reacts to.
`Key[toString(event.which)]` is truthy exactly for these values. -/
def isKnownKey (which : Nat) : Bool :=
  which == 9 || which == 13 || which == 27 || which == 38 || which == 40

/-- Action `handleKeyDown` performs on the open window instance (the
window's own state transitions are modelled on `NgbTypeaheadWindow`). -/
inductive KeyAction where
  | doNext : KeyAction
  | doPrev : KeyAction
  | doSelect : KeyAction
  | noAction : KeyAction
deriving DecidableEq, Repr

/-- `handleKeyDown(event)`: returns immediately when `_windowRef` is
absent; otherwise, for a known key it prevents default and switches on
`event.which`: ArrowDown calls `next()` on the window, ArrowUp `prev()`,
Enter and Tab select the active result (`_selectResult`, which writes the
value, notifies, emits and calls `closePopup()`), Escape calls
`closePopup()`. -/
def handleKeyDown (which : Nat) (s : NgbTypeahead) : NgbTypeahead × KeyAction :=
  if s.windowRef.isNone then (s, KeyAction.noAction)
  else if isKnownKey which then
    if which == 40 then (s, KeyAction.doNext)
    else if which == 38 then (s, KeyAction.doPrev)
    else if which == 13 || which == 9 then (s.closePopup, KeyAction.doSelect)
    else (s.closePopup, KeyAction.noAction)
  else (s, KeyAction.noAction)

end NgbTypeahead

/-- State of the `NgbTypeaheadWindow` component (src/unnamed/part_000,
first file): `activeIdx`, the `focusFirst` / `results` / `term` inputs
(result items abstracted as `Nat`).  `updateView` only scrolls DOM elements
and touches no field, so it is not modelled. -/
structure NgbTypeaheadWindow where
  activeIdx : Int
  focusFirst : Bool
  results : List Nat
  term : String
deriving DecidableEq, Repr

namespace NgbTypeaheadWindow

/-- `ngOnInit() { this.activeIdx = this.focusFirst ? 0 : -1; }` -/
def ngOnInit (w : NgbTypeaheadWindow) : NgbTypeaheadWindow :=
  { w with activeIdx := if w.focusFirst then 0 else -1 }

/-- `markActive(activeIdx) { this.activeIdx = activeIdx; }` -/
def markActive (activeIdx : Int) (w : NgbTypeaheadWindow) :
    NgbTypeaheadWindow :=
  { w with activeIdx := activeIdx }

/-- `getActive() { return this.results[this.activeIdx]; }` (`none` stands
for the `undefined` an out-of-range JavaScript index yields). -/
def getActive (w : NgbTypeaheadWindow) : Option Nat :=
  if w.activeIdx < 0 then none else w.results.get? w.activeIdx.toNat

/-- `next()`: from the last index wrap to `(activeIdx + 1) %
results.length` when `focusFirst`, else to `-1`; otherwise increment. -/
def next (w : NgbTypeaheadWindow) : NgbTypeaheadWindow :=
  if w.activeIdx = (w.results.length : Int) - 1 then
    { w with activeIdx :=
        if w.focusFirst then (w.activeIdx + 1) % (w.results.length : Int)
        else -1 }
  else { w with activeIdx := w.activeIdx + 1 }

/-- `prev()`: from a negative index go to the last index; from `0` wrap to
the last index when `focusFirst`, else to `-1`; otherwise decrement. -/
def prev (w : NgbTypeaheadWindow) : NgbTypeaheadWindow :=
  if w.activeIdx < 0 then
    { w with activeIdx := (w.results.length : Int) - 1 }
  else if w.activeIdx = 0 then
    { w with activeIdx :=
        if w.focusFirst then (w.results.length : Int) - 1 else -1 }
  else { w with activeIdx := w.activeIdx - 1 }

end NgbTypeaheadWindow

/-- One keyboard navigation step on the typeahead window. -/
inductive NavStep where
  | stepNext : NavStep
  | stepPrev : NavStep
deriving DecidableEq, Repr

/-- Apply one navigation step. -/
def applyNav (w : NgbTypeaheadWindow) (st : NavStep) : NgbTypeaheadWindow :=
  match st with
  | NavStep.stepNext => w.next
  | NavStep.stepPrev => w.prev

/-- Apply a sequence of `next()` / `prev()` calls. -/
def applyNavSeq (w : NgbTypeaheadWindow) (steps : List NavStep) :
    NgbTypeaheadWindow :=
  steps.foldl applyNav w

/-- A datepicker directive instance with its panel open (panel ref 1,
scroll listener registered, as `open()` leaves it). -/
def exDatepickerOpen : NgbInputDatepicker :=
  { cRef := some 1, model := none, onChange := 0, onTouched := 0,
    ignoreUpdatePosition := false, scrollListenerRegistered := true,
    elRef := 0, dayTemplate := none, displayMonths := none,
    firstDayOfWeek := none, markDisabled := none, minDate := none,
    maxDate := none, navigation := none, outsideDays := none,
    showFooter := none, showWeekdays := none, showWeekNumbers := none,
    startDate := none }

/-- A datepicker directive instance that was never opened. -/
def exDatepickerClosed : NgbInputDatepicker :=
  { exDatepickerOpen with cRef := none, scrollListenerRegistered := false }

/-- A popover directive instance with its window open. -/
def exPopoverOpen : NgbPopover :=
  { windowRef := some 1, content := some "hello", title := none,
    placement := Placement.top, triggers := "click",
    ignoreUpdatePosition := false, scrollListenerRegistered := true,
    elementRef := 0 }

/-- A popover directive instance that was never opened. -/
def exPopoverClosed : NgbPopover :=
  { exPopoverOpen with windowRef := none, scrollListenerRegistered := false }

/-- A typeahead directive instance with its window open. -/
def exTypeaheadOpen : NgbTypeahead :=
  { windowRef := some 1, ignoreUpdatePosition := false,
    scrollListenerRegistered := true, elementRef := 0, onChangeNoEmit := 0,
    onTouched := 0, inputFormatter := none, ngbTypeahead := none,
    resultFormatter := none, resultTemplate := none }

/-- A typeahead directive instance that was never opened. -/
def exTypeaheadClosed : NgbTypeahead :=
  { exTypeaheadOpen with windowRef := none, scrollListenerRegistered := false }

/-- A typeahead window with three results and `focusFirst` left at its
default `true`. -/
def exWindow : NgbTypeaheadWindow :=
  { activeIdx := 0, focusFirst := true, results := [10, 20, 30], term := "" }

/-- Claim C1: for every widget instance, at most one floating panel is open
at any time — calling the open operation when a panel reference is already
present creates no second panel (no component is created) and leaves the
state, in particular the existing panel reference, unchanged. -/
theorem ngb_c1_single_panel :
    (∀ (s : NgbInputDatepicker) (r newRef : Nat), s.cRef = some r →
        NgbInputDatepicker.openPanel newRef s = (s, [])) ∧
    (∀ (s : NgbPopover) (r newRef : Nat), s.windowRef = some r →
        NgbPopover.openPanel newRef s = (s, [])) ∧
    (∀ (s : NgbTypeahead) (r newRef : Nat), s.windowRef = some r →
        NgbTypeahead.openPopup newRef s = (s, [])) := by
  refine ⟨?_, ?_, ?_⟩ <;> intro s r newRef h <;>
    simp [NgbInputDatepicker.openPanel, NgbInputDatepicker.isOpen,
      NgbPopover.openPanel, NgbTypeahead.openPopup, h]

/-- Witness for C1 at concrete already-open instances. -/
theorem ngb_c1_single_panel_witness :
    NgbInputDatepicker.openPanel 2 exDatepickerOpen = (exDatepickerOpen, []) ∧
    NgbPopover.openPanel 2 exPopoverOpen = (exPopoverOpen, []) ∧
    NgbTypeahead.openPopup 2 exTypeaheadOpen = (exTypeaheadOpen, []) :=
  ⟨ngb_c1_single_panel.1 exDatepickerOpen 1 2 rfl,
   ngb_c1_single_panel.2.1 exPopoverOpen 1 2 rfl,
   ngb_c1_single_panel.2.2 exTypeaheadOpen 1 2 rfl⟩

/-- Claim C3, counterexample: the claim says a scroll event closes the
panel; on a concrete open popover, after the scroll listener handles a
document-level scroll event the panel reference is still present. -/
theorem ngb_c3_scroll_closes_counterexample :
    ¬ (NgbPopover.handleScrollEvent EventTarget.document
        exPopoverOpen).windowRef = none := by
  decide

/-- Claim C3, amended: a scroll event does not tear the panel down — for
all three widgets the scroll listener leaves the panel reference unchanged;
its only effect is to set the one-shot suppression flag when the listener
is registered and the event target is the document. -/
theorem ngb_c3_scroll_keeps_panel :
    (∀ (tgt : EventTarget) (s : NgbInputDatepicker),
        (NgbInputDatepicker.handleScrollEvent tgt s).cRef = s.cRef) ∧
    (∀ (tgt : EventTarget) (s : NgbPopover),
        (NgbPopover.handleScrollEvent tgt s).windowRef = s.windowRef) ∧
    (∀ (tgt : EventTarget) (s : NgbTypeahead),
        (NgbTypeahead.handleScrollEvent tgt s).windowRef = s.windowRef) ∧
    (∀ s : NgbInputDatepicker, s.scrollListenerRegistered = true →
        (NgbInputDatepicker.handleScrollEvent EventTarget.document
          s).ignoreUpdatePosition = true) ∧
    (∀ s : NgbPopover, s.scrollListenerRegistered = true →
        (NgbPopover.handleScrollEvent EventTarget.document
          s).ignoreUpdatePosition = true) ∧
    (∀ s : NgbTypeahead, s.scrollListenerRegistered = true →
        (NgbTypeahead.handleScrollEvent EventTarget.document
          s).ignoreUpdatePosition = true) := by
  refine ⟨?_, ?_, ?_, ?_, ?_, ?_⟩
  · intro tgt s
    cases hr : s.scrollListenerRegistered <;> cases tgt <;>
      simp [NgbInputDatepicker.handleScrollEvent, hr]
  · intro tgt s
    cases hr : s.scrollListenerRegistered <;> cases tgt <;>
      simp [NgbPopover.handleScrollEvent, hr]
  · intro tgt s
    cases hr : s.scrollListenerRegistered <;> cases tgt <;>
      simp [NgbTypeahead.handleScrollEvent, hr]
  · intro s h
    simp [NgbInputDatepicker.handleScrollEvent, h]
  · intro s h
    simp [NgbPopover.handleScrollEvent, h]
  · intro s h
    simp [NgbTypeahead.handleScrollEvent, h]

/-- Witness for the amended C3 at concrete open instances. -/
theorem ngb_c3_scroll_keeps_panel_witness :
    (NgbInputDatepicker.handleScrollEvent EventTarget.document
      exDatepickerOpen).cRef = exDatepickerOpen.cRef ∧
    (NgbPopover.handleScrollEvent EventTarget.document
      exPopoverOpen).ignoreUpdatePosition = true ∧
    (NgbTypeahead.handleScrollEvent EventTarget.document
      exTypeaheadOpen).ignoreUpdatePosition = true :=
  ⟨ngb_c3_scroll_keeps_panel.1 EventTarget.document exDatepickerOpen,
   ngb_c3_scroll_keeps_panel.2.2.2.2.1 exPopoverOpen rfl,
   ngb_c3_scroll_keeps_panel.2.2.2.2.2 exTypeaheadOpen rfl⟩

/-- Claim C4: for every widget instance with its floating panel open,
pressing Escape tears the panel down — the datepicker's `keyup.esc` host
binding calls `close()`, the popover's trigger listeners dispatch `close()`
(escape handling modelled from the spec, see `NgbPopover.handleEscape`),
and the typeahead's `handleKeyDown` with key code 27 calls `closePopup()`;
each leaves the panel reference absent. -/
theorem ngb_c4_escape_closes :
    (∀ s : NgbInputDatepicker, s.isOpen = true →
        (NgbInputDatepicker.handleEscKeyup s).cRef = none) ∧
    (∀ s : NgbPopover, s.windowRef.isSome = true →
        (NgbPopover.handleEscape s).windowRef = none) ∧
    (∀ (s : NgbTypeahead) (r : Nat), s.windowRef = some r →
        (NgbTypeahead.handleKeyDown 27 s).1.windowRef = none) := by
  refine ⟨?_, ?_, ?_⟩
  · intro s _
    cases hc : s.cRef <;>
      simp [NgbInputDatepicker.handleEscKeyup, NgbInputDatepicker.close,
        NgbInputDatepicker.isOpen, hc]
  · intro s _
    simp [NgbPopover.handleEscape, NgbPopover.close]
  · intro s r h
    simp [NgbTypeahead.handleKeyDown, NgbTypeahead.isKnownKey,
      NgbTypeahead.closePopup, h]

/-- Witness for C4 at concrete open instances. -/
theorem ngb_c4_escape_closes_witness :
    (NgbInputDatepicker.handleEscKeyup exDatepickerOpen).cRef = none ∧
    (NgbPopover.handleEscape exPopoverOpen).windowRef = none ∧
    (NgbTypeahead.handleKeyDown 27 exTypeaheadOpen).1.windowRef = none :=
  ⟨ngb_c4_escape_closes.1 exDatepickerOpen rfl,
   ngb_c4_escape_closes.2.1 exPopoverOpen rfl,
   ngb_c4_escape_closes.2.2 exTypeaheadOpen 1 rfl⟩

/-- Claim C2: the scroll-suppression flag is one-shot — with the panel open
(listener registered), a document-level scroll sets the flag, the next tick
makes no `positionElements` call and clears the flag at its end, and the
tick after that (panel still open) repositions again. -/
theorem ngb_c2_one_shot_suppression :
    (∀ (s : NgbInputDatepicker) (r : Nat), s.scrollListenerRegistered = true →
      s.cRef = some r →
        (NgbInputDatepicker.handleScrollEvent EventTarget.document
          s).ignoreUpdatePosition = true ∧
        (NgbInputDatepicker.onStableTick
          (NgbInputDatepicker.handleScrollEvent EventTarget.document s)).2 =
            none ∧
        (NgbInputDatepicker.onStableTick
          (NgbInputDatepicker.handleScrollEvent EventTarget.document
            s)).1.ignoreUpdatePosition = false ∧
        (NgbInputDatepicker.onStableTick (NgbInputDatepicker.onStableTick
          (NgbInputDatepicker.handleScrollEvent EventTarget.document
            s)).1).2 = some (s.elRef, r)) ∧
    (∀ (s : NgbPopover) (r : Nat), s.scrollListenerRegistered = true →
      s.windowRef = some r →
        (NgbPopover.handleScrollEvent EventTarget.document
          s).ignoreUpdatePosition = true ∧
        (NgbPopover.ngAfterViewChecked
          (NgbPopover.handleScrollEvent EventTarget.document s)).2 = none ∧
        (NgbPopover.ngAfterViewChecked
          (NgbPopover.handleScrollEvent EventTarget.document
            s)).1.ignoreUpdatePosition = false ∧
        (NgbPopover.ngAfterViewChecked (NgbPopover.ngAfterViewChecked
          (NgbPopover.handleScrollEvent EventTarget.document s)).1).2 =
            some (s.elementRef, r, s.placement)) ∧
    (∀ (s : NgbTypeahead) (r : Nat), s.scrollListenerRegistered = true →
      s.windowRef = some r →
        (NgbTypeahead.handleScrollEvent EventTarget.document
          s).ignoreUpdatePosition = true ∧
        (NgbTypeahead.ngAfterViewChecked
          (NgbTypeahead.handleScrollEvent EventTarget.document s)).2 = none ∧
        (NgbTypeahead.ngAfterViewChecked
          (NgbTypeahead.handleScrollEvent EventTarget.document
            s)).1.ignoreUpdatePosition = false ∧
        (NgbTypeahead.ngAfterViewChecked (NgbTypeahead.ngAfterViewChecked
          (NgbTypeahead.handleScrollEvent EventTarget.document s)).1).2 =
            some (s.elementRef, r)) := by
  refine ⟨?_, ?_, ?_⟩ <;> intro s r h1 h2
  · simp [NgbInputDatepicker.handleScrollEvent,
      NgbInputDatepicker.onStableTick, h1, h2]
  · simp [NgbPopover.handleScrollEvent, NgbPopover.ngAfterViewChecked,
      h1, h2]
  · simp [NgbTypeahead.handleScrollEvent, NgbTypeahead.ngAfterViewChecked,
      h1, h2]

/-- Witness for C2 at concrete open instances. -/
theorem ngb_c2_one_shot_suppression_witness :
    ((NgbInputDatepicker.onStableTick
      (NgbInputDatepicker.handleScrollEvent EventTarget.document
        exDatepickerOpen)).2 = none ∧
     (NgbInputDatepicker.onStableTick (NgbInputDatepicker.onStableTick
      (NgbInputDatepicker.handleScrollEvent EventTarget.document
        exDatepickerOpen)).1).2 = some (exDatepickerOpen.elRef, 1)) ∧
    ((NgbPopover.ngAfterViewChecked
      (NgbPopover.handleScrollEvent EventTarget.document
        exPopoverOpen)).2 = none) ∧
    ((NgbTypeahead.ngAfterViewChecked
      (NgbTypeahead.handleScrollEvent EventTarget.document
        exTypeaheadOpen)).2 = none) :=
  ⟨⟨(ngb_c2_one_shot_suppression.1 exDatepickerOpen 1 rfl rfl).2.1,
    (ngb_c2_one_shot_suppression.1 exDatepickerOpen 1 rfl rfl).2.2.2⟩,
   (ngb_c2_one_shot_suppression.2.1 exPopoverOpen 1 rfl rfl).2.1,
   (ngb_c2_one_shot_suppression.2.2 exTypeaheadOpen 1 rfl rfl).2.1⟩

/-- Claim C5: each widget positions its panel on layout-stable /
view-checked ticks — a `positionElements` call is made if and only if the
panel is open and the suppression flag is not set; it is then called with
the anchor element and the panel element (and, for the popover, the
placement input); when the panel is closed no call is made. -/
theorem ngb_c5_position_on_tick :
    (∀ s : NgbInputDatepicker,
      ((NgbInputDatepicker.onStableTick s).2.isSome = true ↔
        s.cRef.isSome = true ∧ s.ignoreUpdatePosition = false) ∧
      (∀ r : Nat, s.cRef = some r → s.ignoreUpdatePosition = false →
        (NgbInputDatepicker.onStableTick s).2 = some (s.elRef, r)) ∧
      (s.cRef = none → (NgbInputDatepicker.onStableTick s).2 = none)) ∧
    (∀ s : NgbPopover,
      ((NgbPopover.ngAfterViewChecked s).2.isSome = true ↔
        s.windowRef.isSome = true ∧ s.ignoreUpdatePosition = false) ∧
      (∀ r : Nat, s.windowRef = some r → s.ignoreUpdatePosition = false →
        (NgbPopover.ngAfterViewChecked s).2 =
          some (s.elementRef, r, s.placement)) ∧
      (s.windowRef = none → (NgbPopover.ngAfterViewChecked s).2 = none)) ∧
    (∀ s : NgbTypeahead,
      ((NgbTypeahead.ngAfterViewChecked s).2.isSome = true ↔
        s.windowRef.isSome = true ∧ s.ignoreUpdatePosition = false) ∧
      (∀ r : Nat, s.windowRef = some r → s.ignoreUpdatePosition = false →
        (NgbTypeahead.ngAfterViewChecked s).2 = some (s.elementRef, r)) ∧
      (s.windowRef = none → (NgbTypeahead.ngAfterViewChecked s).2 = none)) := by
  refine ⟨?_, ?_, ?_⟩ <;> intro s
  · refine ⟨?_, ?_, ?_⟩
    · cases hc : s.cRef <;> cases hi : s.ignoreUpdatePosition <;>
        simp [NgbInputDatepicker.onStableTick, hc, hi]
    · intro r hr hi
      simp [NgbInputDatepicker.onStableTick, hr, hi]
    · intro hc
      simp [NgbInputDatepicker.onStableTick, hc]
  · refine ⟨?_, ?_, ?_⟩
    · cases hc : s.windowRef <;> cases hi : s.ignoreUpdatePosition <;>
        simp [NgbPopover.ngAfterViewChecked, hc, hi]
    · intro r hr hi
      simp [NgbPopover.ngAfterViewChecked, hr, hi]
    · intro hc
      simp [NgbPopover.ngAfterViewChecked, hc]
  · refine ⟨?_, ?_, ?_⟩
    · cases hc : s.windowRef <;> cases hi : s.ignoreUpdatePosition <;>
        simp [NgbTypeahead.ngAfterViewChecked, hc, hi]
    · intro r hr hi
      simp [NgbTypeahead.ngAfterViewChecked, hr, hi]
    · intro hc
      simp [NgbTypeahead.ngAfterViewChecked, hc]

/-- Witness for C5: the open instances get a positioning call with their
anchor and panel elements, the never-opened ones get none. -/
theorem ngb_c5_position_on_tick_witness :
    (NgbInputDatepicker.onStableTick exDatepickerOpen).2 =
      some (exDatepickerOpen.elRef, 1) ∧
    (NgbPopover.ngAfterViewChecked exPopoverOpen).2 =
      some (exPopoverOpen.elementRef, 1, exPopoverOpen.placement) ∧
    (NgbTypeahead.ngAfterViewChecked exTypeaheadOpen).2 =
      some (exTypeaheadOpen.elementRef, 1) ∧
    (NgbInputDatepicker.onStableTick exDatepickerClosed).2 = none :=
  ⟨(ngb_c5_position_on_tick.1 exDatepickerOpen).2.1 1 rfl rfl,
   (ngb_c5_position_on_tick.2.1 exPopoverOpen).2.1 1 rfl rfl,
   (ngb_c5_position_on_tick.2.2 exTypeaheadOpen).2.1 1 rfl rfl,
   (ngb_c5_position_on_tick.1 exDatepickerClosed).2.2 rfl⟩

/-- Claim C6: close changes only the panel-open part of the state — after
`close()` / `closePopup()` the panel reference is absent, while the stored
date model, the registered change/touched callbacks and every configuration
input are exactly as before. -/
theorem ngb_c6_close_frame :
    (∀ s : NgbInputDatepicker,
      (NgbInputDatepicker.close s).cRef = none ∧
      (NgbInputDatepicker.close s).model = s.model ∧
      (NgbInputDatepicker.close s).onChange = s.onChange ∧
      (NgbInputDatepicker.close s).onTouched = s.onTouched ∧
      (NgbInputDatepicker.close s).elRef = s.elRef ∧
      (NgbInputDatepicker.close s).dayTemplate = s.dayTemplate ∧
      (NgbInputDatepicker.close s).displayMonths = s.displayMonths ∧
      (NgbInputDatepicker.close s).firstDayOfWeek = s.firstDayOfWeek ∧
      (NgbInputDatepicker.close s).markDisabled = s.markDisabled ∧
      (NgbInputDatepicker.close s).minDate = s.minDate ∧
      (NgbInputDatepicker.close s).maxDate = s.maxDate ∧
      (NgbInputDatepicker.close s).navigation = s.navigation ∧
      (NgbInputDatepicker.close s).outsideDays = s.outsideDays ∧
      (NgbInputDatepicker.close s).showFooter = s.showFooter ∧
      (NgbInputDatepicker.close s).showWeekdays = s.showWeekdays ∧
      (NgbInputDatepicker.close s).showWeekNumbers = s.showWeekNumbers ∧
      (NgbInputDatepicker.close s).startDate = s.startDate) ∧
    (∀ s : NgbPopover,
      (NgbPopover.close s).windowRef = none ∧
      (NgbPopover.close s).content = s.content ∧
      (NgbPopover.close s).title = s.title ∧
      (NgbPopover.close s).placement = s.placement ∧
      (NgbPopover.close s).triggers = s.triggers ∧
      (NgbPopover.close s).elementRef = s.elementRef) ∧
    (∀ s : NgbTypeahead,
      (NgbTypeahead.closePopup s).windowRef = none ∧
      (NgbTypeahead.closePopup s).onChangeNoEmit = s.onChangeNoEmit ∧
      (NgbTypeahead.closePopup s).onTouched = s.onTouched ∧
      (NgbTypeahead.closePopup s).elementRef = s.elementRef ∧
      (NgbTypeahead.closePopup s).inputFormatter = s.inputFormatter ∧
      (NgbTypeahead.closePopup s).ngbTypeahead = s.ngbTypeahead ∧
      (NgbTypeahead.closePopup s).resultFormatter = s.resultFormatter ∧
      (NgbTypeahead.closePopup s).resultTemplate = s.resultTemplate) := by
  refine ⟨?_, ?_, ?_⟩ <;> intro s
  · cases hc : s.cRef <;>
      simp [NgbInputDatepicker.close, NgbInputDatepicker.isOpen, hc]
  · simp [NgbPopover.close]
  · simp [NgbTypeahead.closePopup]

/-- Claim C7: `manualDateChange` has no error branch for unparseable input
— whenever the parse does not yield a valid date, the model is set to null,
null is passed to the registered onChange callback, and null is the value
formatted back into the input element. -/
theorem ngb_c7_manual_change_invalid :
    ∀ (parse : String → Option NgbDate) (isValid : NgbDate → Bool)
      (value : String) (s : NgbInputDatepicker),
      (∀ d : NgbDate, parse value = some d → isValid d = false) →
      (NgbInputDatepicker.manualDateChange parse isValid value s).1.model =
          none ∧
      (NgbInputDatepicker.manualDateChange parse isValid value
        s).2.onChangeArg = none ∧
      (NgbInputDatepicker.manualDateChange parse isValid value
        s).2.formattedModel = none := by
  intro parse isValid value s h
  cases hp : parse value with
  | none =>
      simp [NgbInputDatepicker.manualDateChange, toValidDate, hp]
  | some d =>
      simp [NgbInputDatepicker.manualDateChange, toValidDate, hp, h d hp]

/-- Witness for C7 with a parser that rejects every string. -/
theorem ngb_c7_manual_change_invalid_witness :
    (NgbInputDatepicker.manualDateChange (fun _ => none) (fun _ => true)
      "not a date" exDatepickerClosed).1.model = none ∧
    (NgbInputDatepicker.manualDateChange (fun _ => none) (fun _ => true)
      "not a date" exDatepickerClosed).2.onChangeArg = none ∧
    (NgbInputDatepicker.manualDateChange (fun _ => none) (fun _ => true)
      "not a date" exDatepickerClosed).2.formattedModel = none :=
  ngb_c7_manual_change_invalid (fun _ => none) (fun _ => true) "not a date"
    exDatepickerClosed (fun _ hd => Option.noConfusion hd)

/-- Claim C8: `toggle()` alternates the open/closed state — it closes an
open panel, opens a closed one, and applying it twice restores the original
open/closed state (for the two widgets that have `toggle`). -/
theorem ngb_c8_toggle_alternates :
    (∀ (s : NgbInputDatepicker) (r r2 : Nat),
      (s.isOpen = true →
        (NgbInputDatepicker.toggle r s).1.isOpen = false) ∧
      (s.isOpen = false →
        (NgbInputDatepicker.toggle r s).1.isOpen = true) ∧
      (NgbInputDatepicker.toggle r2
        (NgbInputDatepicker.toggle r s).1).1.isOpen = s.isOpen) ∧
    (∀ (s : NgbPopover) (r r2 : Nat),
      (s.windowRef.isSome = true →
        (NgbPopover.toggle r s).1.windowRef.isSome = false) ∧
      (s.windowRef.isSome = false →
        (NgbPopover.toggle r s).1.windowRef.isSome = true) ∧
      (NgbPopover.toggle r2
        (NgbPopover.toggle r s).1).1.windowRef.isSome =
          s.windowRef.isSome) := by
  refine ⟨?_, ?_⟩ <;> intro s r r2
  · cases hc : s.cRef <;>
      simp [NgbInputDatepicker.toggle, NgbInputDatepicker.openPanel,
        NgbInputDatepicker.close, NgbInputDatepicker.isOpen, hc]
  · cases hc : s.windowRef <;>
      simp [NgbPopover.toggle, NgbPopover.openPanel, NgbPopover.close, hc]

/-- Witness for C8 at concrete open instances. -/
theorem ngb_c8_toggle_alternates_witness :
    (NgbInputDatepicker.toggle 2 exDatepickerOpen).1.isOpen = false ∧
    (NgbInputDatepicker.toggle 3
      (NgbInputDatepicker.toggle 2 exDatepickerOpen).1).1.isOpen =
        exDatepickerOpen.isOpen ∧
    (NgbPopover.toggle 2 exPopoverClosed).1.windowRef.isSome = true :=
  ⟨(ngb_c8_toggle_alternates.1 exDatepickerOpen 2 3).1 rfl,
   (ngb_c8_toggle_alternates.1 exDatepickerOpen 2 3).2.2,
   (ngb_c8_toggle_alternates.2 exPopoverClosed 2 3).2.1 rfl⟩

/-- Claim C10: close is idempotent and safe on a never-opened widget —
`close();close()` equals a single `close()`, and on a widget whose panel
reference is absent and whose scroll listener was never registered,
`close()` leaves the state unchanged (removing an unregistered listener is
a DOM no-op, modelled by the listener-registered field). -/
theorem ngb_c10_close_idempotent :
    (∀ s : NgbInputDatepicker,
      NgbInputDatepicker.close (NgbInputDatepicker.close s) =
        NgbInputDatepicker.close s ∧
      (s.cRef = none → s.scrollListenerRegistered = false →
        NgbInputDatepicker.close s = s)) ∧
    (∀ s : NgbPopover,
      NgbPopover.close (NgbPopover.close s) = NgbPopover.close s ∧
      (s.windowRef = none → s.scrollListenerRegistered = false →
        NgbPopover.close s = s)) ∧
    (∀ s : NgbTypeahead,
      NgbTypeahead.closePopup (NgbTypeahead.closePopup s) =
        NgbTypeahead.closePopup s ∧
      (s.windowRef = none → s.scrollListenerRegistered = false →
        NgbTypeahead.closePopup s = s)) := by
  refine ⟨?_, ?_, ?_⟩ <;> intro s
  · constructor
    · cases hc : s.cRef <;>
        simp [NgbInputDatepicker.close, NgbInputDatepicker.isOpen, hc]
    · intro h1 h2
      cases s
      simp_all [NgbInputDatepicker.close, NgbInputDatepicker.isOpen]
  · constructor
    · simp [NgbPopover.close]
    · intro h1 h2
      cases s
      simp_all [NgbPopover.close]
  · constructor
    · simp [NgbTypeahead.closePopup]
    · intro h1 h2
      cases s
      simp_all [NgbTypeahead.closePopup]

/-- Witness for C10 on concrete never-opened instances. -/
theorem ngb_c10_close_idempotent_witness :
    NgbInputDatepicker.close exDatepickerClosed = exDatepickerClosed ∧
    NgbPopover.close exPopoverClosed = exPopoverClosed ∧
    NgbTypeahead.closePopup exTypeaheadClosed = exTypeaheadClosed :=
  ⟨(ngb_c10_close_idempotent.1 exDatepickerClosed).2 rfl rfl,
   (ngb_c10_close_idempotent.2.1 exPopoverClosed).2 rfl rfl,
   (ngb_c10_close_idempotent.2.2 exTypeaheadClosed).2 rfl rfl⟩

theorem applyNav_results (w : NgbTypeaheadWindow) (st : NavStep) :
    (applyNav w st).results = w.results := by
  cases st
  · show w.next.results = w.results
    unfold NgbTypeaheadWindow.next
    split <;> rfl
  · show w.prev.results = w.results
    unfold NgbTypeaheadWindow.prev
    split
    · rfl
    · split <;> rfl

theorem applyNav_focusFirst (w : NgbTypeaheadWindow) (st : NavStep) :
    (applyNav w st).focusFirst = w.focusFirst := by
  cases st
  · show w.next.focusFirst = w.focusFirst
    unfold NgbTypeaheadWindow.next
    split <;> rfl
  · show w.prev.focusFirst = w.focusFirst
    unfold NgbTypeaheadWindow.prev
    split
    · rfl
    · split <;> rfl

theorem applyNav_bounds (w : NgbTypeaheadWindow) (st : NavStep)
    (hlen : 0 < w.results.length) (h1 : -1 ≤ w.activeIdx)
    (h2 : w.activeIdx ≤ (w.results.length : Int) - 1) :
    -1 ≤ (applyNav w st).activeIdx ∧
    (applyNav w st).activeIdx ≤ (w.results.length : Int) - 1 := by
  have hl : (1 : Int) ≤ (w.results.length : Int) := by exact_mod_cast hlen
  cases st
  · show -1 ≤ w.next.activeIdx ∧ w.next.activeIdx ≤ _
    unfold NgbTypeaheadWindow.next
    by_cases hc : w.activeIdx = (w.results.length : Int) - 1
    · by_cases hf : w.focusFirst = true
      · have he : w.activeIdx + 1 = (w.results.length : Int) := by omega
        simp [hc, hf, he, Int.emod_self]; omega
      · simp [hc, hf]
    · simp [hc]; omega
  · show -1 ≤ w.prev.activeIdx ∧ w.prev.activeIdx ≤ _
    unfold NgbTypeaheadWindow.prev
    by_cases hc1 : w.activeIdx < 0
    · simp [hc1]
    · by_cases hc2 : w.activeIdx = 0
      · by_cases hf : w.focusFirst = true
        · simp [hc1, hc2, hf]
        · simp [hc1, hc2, hf]
      · simp [hc1, hc2]; omega

theorem applyNav_bounds_ff (w : NgbTypeaheadWindow) (st : NavStep)
    (hff : w.focusFirst = true) (hlen : 0 < w.results.length)
    (h1 : 0 ≤ w.activeIdx)
    (h2 : w.activeIdx ≤ (w.results.length : Int) - 1) :
    0 ≤ (applyNav w st).activeIdx ∧
    (applyNav w st).activeIdx ≤ (w.results.length : Int) - 1 := by
  have hl : (1 : Int) ≤ (w.results.length : Int) := by exact_mod_cast hlen
  cases st
  · show 0 ≤ w.next.activeIdx ∧ w.next.activeIdx ≤ _
    unfold NgbTypeaheadWindow.next
    by_cases hc : w.activeIdx = (w.results.length : Int) - 1
    · have he : w.activeIdx + 1 = (w.results.length : Int) := by omega
      simp [hc, hff, he, Int.emod_self]; omega
    · simp [hc]; omega
  · show 0 ≤ w.prev.activeIdx ∧ w.prev.activeIdx ≤ _
    unfold NgbTypeaheadWindow.prev
    have hc1 : ¬ w.activeIdx < 0 := by omega
    by_cases hc2 : w.activeIdx = 0
    · simp [hc1, hc2, hff]; omega
    · simp [hc1, hc2]; omega

theorem applyNavSeq_results (steps : List NavStep) :
    ∀ w : NgbTypeaheadWindow, (applyNavSeq w steps).results = w.results := by
  induction steps with
  | nil => intro w; rfl
  | cons st rest ih =>
      intro w
      have heq : applyNavSeq w (st :: rest) =
          applyNavSeq (applyNav w st) rest := rfl
      rw [heq, ih (applyNav w st), applyNav_results]

theorem applyNavSeq_bounds (steps : List NavStep) :
    ∀ w : NgbTypeaheadWindow, 0 < w.results.length → -1 ≤ w.activeIdx →
    w.activeIdx ≤ (w.results.length : Int) - 1 →
    -1 ≤ (applyNavSeq w steps).activeIdx ∧
    (applyNavSeq w steps).activeIdx ≤ (w.results.length : Int) - 1 := by
  induction steps with
  | nil => intro w _ h1 h2; exact ⟨h1, h2⟩
  | cons st rest ih =>
      intro w hlen h1 h2
      have hres := applyNav_results w st
      have hb := applyNav_bounds w st hlen h1 h2
      have hrec := ih (applyNav w st) (by rw [hres]; exact hlen) hb.1
        (by rw [hres]; exact hb.2)
      rw [hres] at hrec
      exact hrec

theorem applyNavSeq_bounds_ff (steps : List NavStep) :
    ∀ w : NgbTypeaheadWindow, w.focusFirst = true → 0 < w.results.length →
    0 ≤ w.activeIdx → w.activeIdx ≤ (w.results.length : Int) - 1 →
    0 ≤ (applyNavSeq w steps).activeIdx ∧
    (applyNavSeq w steps).activeIdx ≤ (w.results.length : Int) - 1 := by
  induction steps with
  | nil => intro w _ _ h1 h2; exact ⟨h1, h2⟩
  | cons st rest ih =>
      intro w hff hlen h1 h2
      have hres := applyNav_results w st
      have hf := applyNav_focusFirst w st
      have hb := applyNav_bounds_ff w st hff hlen h1 h2
      have hrec := ih (applyNav w st) (by rw [hf]; exact hff)
        (by rw [hres]; exact hlen) hb.1 (by rw [hres]; exact hb.2)
      rw [hres] at hrec
      exact hrec

/-- Claim C9: for a typeahead window with non-empty results, after
`ngOnInit` and any sequence of `next()` / `prev()` calls the active index
stays in the set consisting of -1 together with the interval from 0 to
`results.length - 1`; with `focusFirst` the value -1 is never reached,
`next()` from the last index wraps to 0 and `prev()` from 0 wraps to the
last index. -/
theorem ngb_c9_active_idx_invariant :
    (∀ (w : NgbTypeaheadWindow) (steps : List NavStep), w.results ≠ [] →
      (-1 ≤ (applyNavSeq (NgbTypeaheadWindow.ngOnInit w) steps).activeIdx ∧
       (applyNavSeq (NgbTypeaheadWindow.ngOnInit w) steps).activeIdx ≤
         (w.results.length : Int) - 1) ∧
      (w.focusFirst = true →
        0 ≤ (applyNavSeq (NgbTypeaheadWindow.ngOnInit w)
          steps).activeIdx)) ∧
    (∀ v : NgbTypeaheadWindow, v.results ≠ [] → v.focusFirst = true →
      (v.activeIdx = (v.results.length : Int) - 1 →
        (NgbTypeaheadWindow.next v).activeIdx = 0) ∧
      (v.activeIdx = 0 →
        (NgbTypeaheadWindow.prev v).activeIdx =
          (v.results.length : Int) - 1)) := by
  constructor
  · intro w steps hne
    have hlen : 0 < w.results.length := List.length_pos.mpr hne
    have hl : (1 : Int) ≤ (w.results.length : Int) := by exact_mod_cast hlen
    have hres0 : (NgbTypeaheadWindow.ngOnInit w).results = w.results := rfl
    have hff0 : (NgbTypeaheadWindow.ngOnInit w).focusFirst = w.focusFirst :=
      rfl
    have ha : (NgbTypeaheadWindow.ngOnInit w).activeIdx =
        if w.focusFirst = true then 0 else -1 := rfl
    constructor
    · have hb := applyNavSeq_bounds steps (NgbTypeaheadWindow.ngOnInit w)
        (by rw [hres0]; exact hlen)
        (by rw [ha]; split <;> omega)
        (by rw [ha, hres0]; split <;> omega)
      rw [hres0] at hb
      exact hb
    · intro hff
      have hb := applyNavSeq_bounds_ff steps (NgbTypeaheadWindow.ngOnInit w)
        (by rw [hff0]; exact hff) (by rw [hres0]; exact hlen)
        (by rw [ha, if_pos hff])
        (by rw [ha, hres0]; split <;> omega)
      exact hb.1
  · intro v hne hff
    have hlen : 0 < v.results.length := List.length_pos.mpr hne
    have hl : (1 : Int) ≤ (v.results.length : Int) := by exact_mod_cast hlen
    constructor
    · intro hlast
      unfold NgbTypeaheadWindow.next
      have he : v.activeIdx + 1 = (v.results.length : Int) := by omega
      simp [hlast, hff, he, Int.emod_self]
    · intro h0
      unfold NgbTypeaheadWindow.prev
      have hc1 : ¬ v.activeIdx < 0 := by omega
      simp [hc1, h0, hff]

/-- Witness for C9 on a concrete three-result window and a concrete
navigation sequence. -/
theorem ngb_c9_active_idx_invariant_witness :
    ((-1 ≤ (applyNavSeq (NgbTypeaheadWindow.ngOnInit exWindow)
        [NavStep.stepNext, NavStep.stepNext, NavStep.stepPrev]).activeIdx ∧
      (applyNavSeq (NgbTypeaheadWindow.ngOnInit exWindow)
        [NavStep.stepNext, NavStep.stepNext, NavStep.stepPrev]).activeIdx ≤
        (exWindow.results.length : Int) - 1) ∧
     (exWindow.focusFirst = true →
       0 ≤ (applyNavSeq (NgbTypeaheadWindow.ngOnInit exWindow)
         [NavStep.stepNext, NavStep.stepNext, NavStep.stepPrev]).activeIdx)) ∧
    ((exWindow.activeIdx = (exWindow.results.length : Int) - 1 →
        (NgbTypeaheadWindow.next exWindow).activeIdx = 0) ∧
     (exWindow.activeIdx = 0 →
        (NgbTypeaheadWindow.prev exWindow).activeIdx =
          (exWindow.results.length : Int) - 1)) :=
  ⟨ngb_c9_active_idx_invariant.1 exWindow
      [NavStep.stepNext, NavStep.stepNext, NavStep.stepPrev] (by decide),
   ngb_c9_active_idx_invariant.2 exWindow (by decide) rfl⟩

end NgbBootstrap
